import Mathlib

/-!
Verification of the Plasma Shield policy gateway.

This file gives a shallow embedding, in Lean 4, of the parts of the
Plasma Shield code base that the checked properties speak about:

* the rule engine (`internal/rules`): rule data model, tier policy,
  tier-aware domain/command evaluation, and atomic rule loading;
* the mode manager (`internal/mode`): global and per-agent modes and
  the `ShouldBlock` decision;
* the forward proxy (`internal/proxy`): source admission
  (`validateSource` / `ServeHTTP`), the mode-aware `CheckRequest`
  decision of the `Inspector`, and the outbound header rewriting of
  `handleHTTP`;
* the reverse proxy (`internal/proxy`): the identity-masking header
  rewrite of `ReverseHandler.forward` and the captain-name fallback of
  `ReverseHandler.ServeHTTP`;
* the bastion (`internal/bastion`): the grant store (`GrantStore.Get`,
  `ValidateAccess`) and the control flow of `handleConn` /
  `handleDirectTCPIP` (channel admission, dial failure, session log).

Go `http.Header` values are modelled as association lists of
name/value pairs; Go canonicalises header keys, which makes key lookup
case-insensitive, so all header operations here compare names through
`String.toLower`.  Times (`time.Time`) are modelled as integers
(`Int`, nanoseconds since the epoch); `a.After(b)` is `b < a` and
`a.Before(b)` is `a < b`.  External effects (YAML parsing, regex
compilation, TCP dials, channel accepts) enter the model as explicit
parameters holding their outcome.
-/

namespace PlasmaShield

/-! ## HTTP headers

Go's `http.Header` is a map from canonical MIME keys to value lists.
Canonicalisation makes two keys collide exactly when they agree
case-insensitively, so the model keeps the literal pairs and compares
names via `String.toLower`. -/

/-- Association-list model of `http.Header`: one entry per value. -/
abbrev Headers : Type := List (String × String)

/-- ASCII lower-casing (`strings.ToLower` as used on header names and
domains, which are ASCII).  Defined by structural recursion over the
character list so that concrete instances evaluate inside proofs. -/
def lowerStr (s : String) : String :=
  String.mk (s.data.map Char.toLower)

/-- Values held for a header name, compared case-insensitively
(`http.Header.Values`). -/
def hdrValues (h : Headers) (k : String) : List String :=
  (h.filter (fun p => lowerStr p.1 == lowerStr k)).map (fun p => p.2)

/-- Removal of every value of a header name (`http.Header.Del`). -/
def hdrDel (h : Headers) (k : String) : Headers :=
  h.filter (fun p => lowerStr p.1 != lowerStr k)

/-- Replacement of a header with a single value (`http.Header.Set`). -/
def hdrSet (h : Headers) (k v : String) : Headers :=
  hdrDel h k ++ [(k, v)]

/-! ## Rule engine data model (`internal/rules`) -/

/-- Mirror of `rules.Rule` (engine.go). -/
structure Rule where
  id : String
  pattern : String
  domain : String
  action : String
  description : String
  tiers : List String
  enabled : Bool
deriving Repr, DecidableEq

/-- Mirror of `rules.CompiledRule` (compiler.go): a rule paired with
its compiled matchers.  The matcher produced by `regexp.Compile` is
kept abstract as a Boolean predicate on strings; a rule without a
pattern of a kind carries `none`, and matching against an absent
matcher yields false (`MatchCommand` / `MatchDomain`). -/
structure CompiledRule where
  rule : Rule
  commandMatcher : Option (String → Bool)
  domainMatcher : Option (String → Bool)

/-- Mirror of `CompiledRule.MatchCommand`. -/
def CompiledRule.matchCommand (cr : CompiledRule) (cmd : String) : Bool :=
  match cr.commandMatcher with
  | none => false
  | some m => m cmd

/-- Mirror of `CompiledRule.MatchDomain`: the domain is lower-cased
before matching. -/
def CompiledRule.matchDomain (cr : CompiledRule) (domain : String) : Bool :=
  match cr.domainMatcher with
  | none => false
  | some m => m (lowerStr domain)

/-- Mirror of `Rule.appliesToTier` (engine.go).  A commodore caller is
exempt from block rules unless "commodore" is listed explicitly; a
rule with no tiers applies to everyone else; otherwise the caller's
tier must be listed. -/
def Rule.appliesToTier (r : Rule) (tier : String) : Bool :=
  if tier == "commodore" && r.action == "block" then
    if r.tiers.contains "commodore" then true
    else if 0 < r.tiers.length then false
    else false
  else if r.tiers.length == 0 then true
  else r.tiers.contains tier

/-- Mirror of `rules.Engine` state: the raw ruleset, the compiled
rules, the recorded rules path and the default action. -/
structure Engine where
  rules : List Rule
  compiled : List CompiledRule
  rulesPath : String
  defaultAction : String

/-- Mirror of `rules.NewEngine` without options. -/
def Engine.new : Engine :=
  { rules := [], compiled := [], rulesPath := "", defaultAction := "allow" }

/-- Mirror of `Engine.RuleCount`. -/
def Engine.ruleCount (e : Engine) : Nat :=
  e.compiled.length

/-- Loop body of `Engine.CheckDomainWithTier` (engine.go): iterate the
compiled rules in order, skipping disabled rules, rules without a
domain pattern and (for a non-empty tier) rules that do not apply to
the tier; the first matching rule decides; otherwise the default
action decides. -/
def evalDomainRules (domain tier defaultAction : String) :
    List CompiledRule → Bool × Option Rule × String
  | [] =>
    if defaultAction == "block" then (false, none, "blocked by default policy")
    else (true, none, "allowed by default policy")
  | cr :: rest =>
    if !cr.rule.enabled then evalDomainRules domain tier defaultAction rest
    else if cr.rule.domain == "" then evalDomainRules domain tier defaultAction rest
    else if tier != "" && !cr.rule.appliesToTier tier then
      evalDomainRules domain tier defaultAction rest
    else if cr.matchDomain domain then
      if cr.rule.action == "block" then
        (false, some cr.rule, "blocked by rule " ++ cr.rule.id ++ ": " ++ cr.rule.description)
      else
        (true, some cr.rule, "allowed by rule " ++ cr.rule.id ++ ": " ++ cr.rule.description)
    else evalDomainRules domain tier defaultAction rest

/-- Loop body of `Engine.CheckCommandWithTier` (engine.go); identical
to the domain loop but keyed on the command pattern. -/
def evalCommandRules (command tier defaultAction : String) :
    List CompiledRule → Bool × Option Rule × String
  | [] =>
    if defaultAction == "block" then (false, none, "blocked by default policy")
    else (true, none, "allowed by default policy")
  | cr :: rest =>
    if !cr.rule.enabled then evalCommandRules command tier defaultAction rest
    else if cr.rule.pattern == "" then evalCommandRules command tier defaultAction rest
    else if tier != "" && !cr.rule.appliesToTier tier then
      evalCommandRules command tier defaultAction rest
    else if cr.matchCommand command then
      if cr.rule.action == "block" then
        (false, some cr.rule, "blocked by rule " ++ cr.rule.id ++ ": " ++ cr.rule.description)
      else
        (true, some cr.rule, "allowed by rule " ++ cr.rule.id ++ ": " ++ cr.rule.description)
    else evalCommandRules command tier defaultAction rest

/-- Mirror of `Engine.CheckDomainWithTier`. -/
def Engine.checkDomainWithTier (e : Engine) (domain tier : String) :
    Bool × Option Rule × String :=
  evalDomainRules domain tier e.defaultAction e.compiled

/-- Mirror of `Engine.CheckDomain`: tier-blind evaluation, delegating
with the empty tier. -/
def Engine.checkDomain (e : Engine) (domain : String) : Bool × Option Rule × String :=
  e.checkDomainWithTier domain ""

/-- Mirror of `Engine.CheckCommandWithTier`. -/
def Engine.checkCommandWithTier (e : Engine) (command tier : String) :
    Bool × Option Rule × String :=
  evalCommandRules command tier e.defaultAction e.compiled

/-- Mirror of `Engine.CheckCommand`: tier-blind evaluation. -/
def Engine.checkCommand (e : Engine) (command : String) : Bool × Option Rule × String :=
  e.checkCommandWithTier command ""

/-! ## Specification-side evaluation

The evaluation algorithm as the specification words it: skip rules
that are disabled, lack a pattern of the requested kind, or do not
apply to the caller's tier under the tier policy (tier filtering is
skipped for the empty tier); the first rule whose matcher accepts
decides; otherwise the default action decides.  These definitions are
written from the specification text and compared with the code-derived
evaluators above. -/

/-- Eligibility of a rule for a domain request under the
specification's evaluation algorithm. -/
def specDomainEligible (domain tier : String) (cr : CompiledRule) : Bool :=
  cr.rule.enabled && !(cr.rule.domain == "") &&
    (tier == "" || cr.rule.appliesToTier tier) && cr.matchDomain domain

/-- Eligibility of a rule for a command request under the
specification's evaluation algorithm. -/
def specCommandEligible (command tier : String) (cr : CompiledRule) : Bool :=
  cr.rule.enabled && !(cr.rule.pattern == "") &&
    (tier == "" || cr.rule.appliesToTier tier) && cr.matchCommand command

/-- First-match domain evaluation as the specification words it. -/
def specCheckDomainWithTier (e : Engine) (domain tier : String) :
    Bool × Option Rule × String :=
  match e.compiled.find? (specDomainEligible domain tier) with
  | some cr =>
    if cr.rule.action == "block" then
      (false, some cr.rule, "blocked by rule " ++ cr.rule.id ++ ": " ++ cr.rule.description)
    else
      (true, some cr.rule, "allowed by rule " ++ cr.rule.id ++ ": " ++ cr.rule.description)
  | none =>
    if e.defaultAction == "block" then (false, none, "blocked by default policy")
    else (true, none, "allowed by default policy")

/-- First-match command evaluation as the specification words it. -/
def specCheckCommandWithTier (e : Engine) (command tier : String) :
    Bool × Option Rule × String :=
  match e.compiled.find? (specCommandEligible command tier) with
  | some cr =>
    if cr.rule.action == "block" then
      (false, some cr.rule, "blocked by rule " ++ cr.rule.id ++ ": " ++ cr.rule.description)
    else
      (true, some cr.rule, "allowed by rule " ++ cr.rule.id ++ ": " ++ cr.rule.description)
  | none =>
    if e.defaultAction == "block" then (false, none, "blocked by default policy")
    else (true, none, "allowed by default policy")

/-! ## Rule loading (`Engine.LoadRules` / `Engine.LoadRulesFromBytes`)

`LoadFromFile` / `LoadFromBytes` (loader.go) read and YAML-parse the
input through `os.ReadFile` and `yaml.Unmarshal`; both are external,
so the parse outcome enters the model as an `Except` argument.
`regexp.Compile` inside `CompileRule` is likewise external, so the
per-rule compiler is passed as a function returning `Except`.  The
control flow around them is translated from engine.go. -/

/-- Mirror of `compileRuleSet` (engine.go): compile the rules in
order, failing on the first rule whose compilation fails, with the
error naming the rule id. -/
def compileRuleSetWith (compileOne : Rule → Except String CompiledRule) :
    List Rule → Except String (List CompiledRule)
  | [] => Except.ok []
  | r :: rest =>
    match compileOne r with
    | Except.error msg => Except.error ("failed to compile rule " ++ r.id ++ ": " ++ msg)
    | Except.ok cr =>
      match compileRuleSetWith compileOne rest with
      | Except.error msg => Except.error msg
      | Except.ok crs => Except.ok (cr :: crs)

/-- Mirror of `Engine.LoadRulesFromBytes`: parse, compile, and only on
success replace the ruleset and compiled rules in one step.  Returns
the resulting engine state alongside the error, mirroring the receiver
state after the call. -/
def Engine.loadRulesFromBytes (e : Engine) (parsed : Except String (List Rule))
    (compileOne : Rule → Except String CompiledRule) : Engine × Option String :=
  match parsed with
  | Except.error msg => (e, some msg)
  | Except.ok rs =>
    match compileRuleSetWith compileOne rs with
    | Except.error msg => (e, some msg)
    | Except.ok compiled => ({ e with rules := rs, compiled := compiled }, none)

/-- Mirror of `Engine.LoadRules`: as `LoadRulesFromBytes` but reading
from a file (outcome passed in) and recording the path on success. -/
def Engine.loadRules (e : Engine) (path : String)
    (fileParsed : Except String (List Rule))
    (compileOne : Rule → Except String CompiledRule) : Engine × Option String :=
  match fileParsed with
  | Except.error msg => (e, some msg)
  | Except.ok rs =>
    match compileRuleSetWith compileOne rs with
    | Except.error msg => (e, some msg)
    | Except.ok compiled =>
      ({ e with rules := rs, compiled := compiled, rulesPath := path }, none)

/-- Whether an `Except` outcome is an error. -/
def isErr : Except String CompiledRule → Bool
  | Except.error _ => true
  | Except.ok _ => false

/-! ## Mode manager (`internal/mode`)

`mode.Mode` is a string type in Go (`enforce`, `audit`, `lockdown`),
so modes are kept as strings here; per-agent overrides live in a map
from agent id to mode, modelled as an association list. -/

/-- Mirror of `mode.Manager` state. -/
structure ModeManager where
  globalMode : String
  agentModes : List (String × String)

/-- Mirror of `mode.NewManager`: enforce globally, no overrides. -/
def ModeManager.new : ModeManager :=
  { globalMode := "enforce", agentModes := [] }

/-- Mirror of `Manager.AgentMode`: the per-agent override if present,
else the global mode. -/
def ModeManager.agentMode (m : ModeManager) (agentID : String) : String :=
  match m.agentModes.lookup agentID with
  | some md => md
  | none => m.globalMode

/-- Mirror of `Manager.ShouldBlock`: audit never blocks, lockdown
always blocks, anything else (enforce) blocks iff a rule matched. -/
def ModeManager.shouldBlock (m : ModeManager) (agentID : String) (ruleMatched : Bool) : Bool :=
  let md := m.agentMode agentID
  if md == "audit" then false
  else if md == "lockdown" then true
  else ruleMatched

/-! ## Forward proxy (`internal/proxy/handler.go`, inspector) -/

/-- Mirror of `Handler.validateSource`: with no registry every source
is admitted as agent "unknown", tier "unknown"; otherwise the registry
decides (`AgentRegistry.ValidateAgentIP`, passed as a function). -/
def validateSource (registry : Option (String → String × String × Bool))
    (ip : String) : String × String × Bool :=
  match registry with
  | none => ("unknown", "unknown", true)
  | some validateAgentIP => validateAgentIP ip

/-- Admission step of `Handler.ServeHTTP`: `none` is the 403
unregistered-agent rejection; `some (id, tier)` is an admitted request
with the resolved identity attached. -/
def admissionResult (registry : Option (String → String × String × Bool))
    (ip : String) : Option (String × String) :=
  let res := validateSource registry ip
  if res.2.2 then some (res.1, res.2.1) else none

/-- Mirror of `Inspector.CheckRequest` (inspector.go): the agent id
comes from the `X-Agent-Token` header, the host is checked with the
tier-blind `CheckDomain`, and the mode manager turns the rule match
into the blocking decision.  Returns (shouldBlock, ruleMatched,
reason). -/
def checkRequest (e : Engine) (mm : ModeManager) (xAgentToken host : String) :
    Bool × Bool × String :=
  let agentID := xAgentToken
  let res := e.checkDomain host
  let ruleMatched := !res.1
  let shouldBlock := mm.shouldBlock agentID ruleMatched
  let ruleID :=
    match res.2.1 with
    | some r => r.id
    | none => ""
  let reason :=
    if ruleMatched then
      if ruleID != "" then ruleID ++ ": " ++ res.2.2 else res.2.2
    else ""
  (shouldBlock, ruleMatched, reason)

/-- Outbound header construction of the non-CONNECT forwarding path:
`Handler.ServeHTTP` first sets `X-Agent-ID` and `X-Agent-Tier` to the
admission-resolved identity on the incoming request, then
`Handler.handleHTTP` copies all headers and deletes
`Proxy-Connection` and `X-Agent-Token`. -/
def forwardOutboundHeaders (clientHeaders : Headers) (agentID tier : String) : Headers :=
  let afterAdmission := hdrSet (hdrSet clientHeaders "X-Agent-ID" agentID) "X-Agent-Tier" tier
  hdrDel (hdrDel afterAdmission "Proxy-Connection") "X-Agent-Token"

/-! ## Reverse proxy (`ReverseHandler`) -/

/-- First skip condition of `ReverseHandler.forward`: hop-by-hop and
authorization headers, compared on the lower-cased name. -/
def isHopByHopHeader (lower : String) : Bool :=
  lower == "authorization" || lower == "connection" ||
    lower == "keep-alive" || lower == "proxy-authenticate" ||
    lower == "proxy-authorization" || lower == "te" ||
    lower == "trailers" || lower == "transfer-encoding" ||
    lower == "upgrade"

/-- Second skip condition of `ReverseHandler.forward`: headers that
could reveal the origin identity. -/
def isIdentityHeader (lower : String) : Bool :=
  lower == "x-forwarded-for" || lower == "x-real-ip" ||
    lower == "x-originating-ip" || lower == "x-remote-ip" ||
    lower == "x-remote-addr" || lower == "x-client-ip" ||
    lower == "x-agent-id" || lower == "x-source-agent"

/-- Mirror of the header rewrite in `ReverseHandler.forward`: copy all
request headers except the skipped ones, then set `X-Captain`,
`X-Forwarded-Proto` and `X-Plasma-Shield`. -/
def reverseForwardHeaders (reqHeaders : Headers) (captainName : String) : Headers :=
  let copied := reqHeaders.filter
    (fun p => !isHopByHopHeader (lowerStr p.1) && !isIdentityHeader (lowerStr p.1))
  hdrSet (hdrSet (hdrSet copied "X-Captain" captainName)
    "X-Forwarded-Proto" "https") "X-Plasma-Shield" "true"

/-- Captain-name fallback in `ReverseHandler.ServeHTTP`: the tenant's
captain display name when non-empty, else the tenant id. -/
def effectiveCaptainName (tenantCaptain tenantID : String) : String :=
  if tenantCaptain == "" then tenantID else tenantCaptain

/-- Header names the identity-masking contract forbids on the
outbound reverse-proxied request, lower-cased. -/
def maskedHeaderNames : List String :=
  ["connection", "keep-alive", "proxy-authenticate", "proxy-authorization",
   "te", "trailers", "transfer-encoding", "upgrade", "authorization",
   "x-forwarded-for", "x-real-ip", "x-originating-ip", "x-remote-ip",
   "x-remote-addr", "x-client-ip", "x-agent-id", "x-source-agent"]

/-! ## Bastion grant store (`internal/bastion`, grants) -/

/-- Mirror of `time.Time.After`: `a` is strictly later than `b`. -/
def timeAfter (a b : Int) : Bool :=
  b < a

/-- Mirror of `bastion.Grant`. -/
structure Grant where
  id : String
  principal : String
  target : String
  expiresAt : Int
  createdAt : Int
  createdBy : String
deriving Repr, DecidableEq

/-- Mirror of `bastion.GrantStore` state: the id-keyed grant map,
modelled as an association list. -/
structure GrantStore where
  grants : List (String × Grant)

/-- Mirror of `matchTarget` (grants.go): wildcard or exact match. -/
def matchTarget (grantTarget requestedTarget : String) : Bool :=
  if grantTarget == "*" then true
  else if grantTarget == requestedTarget then true
  else false

/-- Mirror of `GrantStore.Get`: nil when the id is absent or the
clock is strictly past the expiry. -/
def GrantStore.get (s : GrantStore) (now : Int) (id : String) : Option Grant :=
  match s.grants.lookup id with
  | none => none
  | some g => if timeAfter now g.expiresAt then none else some g

/-- Mirror of `GrantStore.ValidateAccess`: the first grant that is not
expired, whose principal matches exactly and whose target matches the
requested target. -/
def GrantStore.validateAccess (s : GrantStore) (now : Int)
    (principal target : String) : Option Grant :=
  (s.grants.find? (fun pr =>
    !timeAfter now pr.2.expiresAt && pr.2.principal == principal &&
      matchTarget pr.2.target target)).map (fun pr => pr.2)

/-! ## Bastion channel handling (`server.go`, logger.go)

`handleConn` dispatches channels by type; `handleDirectTCPIP` parses
the payload, validates the grant before accepting, dials the target
and logs connect/disconnect events around the splice.  The handler is
modelled as the sequence of externally visible actions it performs;
outcomes of `ssh.Unmarshal`, `channel.Accept` and `net.Dial` are
inputs. -/

/-- Mirror of the `directTCPIP` channel payload. -/
structure Payload where
  destAddr : String
  destPort : Nat
  origAddr : String
  origPort : Nat
deriving Repr, DecidableEq

/-- Rejection reasons used by the bastion (`ssh.Prohibited`,
`ssh.UnknownChannelType`). -/
inductive RejectReason where
  | prohibited
  | unknownChannelType
deriving Repr, DecidableEq

/-- Externally visible actions of the bastion channel handlers, in
order of occurrence. -/
inductive ChannelAction where
  | rejected (reason : RejectReason) (msg : String)
  | accepted
  | dialed (addr : String)
  | sessionLogged (event grantID principal target : String)
  | targetClosed
  | channelClosed
deriving Repr, DecidableEq

/-- Mirror of `net.JoinHostPort`: a host containing a colon (IPv6) is
bracketed. -/
def joinHostPort (host : String) (port : Nat) : String :=
  if host.contains ':' then "[" ++ host ++ "]:" ++ toString port
  else host ++ ":" ++ toString port

/-- Control flow of `Server.handleDirectTCPIP` as an action trace.
`payload` is the `ssh.Unmarshal` outcome; `acceptOk` and `dialOk` are
the outcomes of `channel.Accept` and `net.Dial`.  Deferred closes and
the deferred disconnect log run in last-in-first-out order after the
splice returns. -/
def handleDirectTCPIP (grants : GrantStore) (now : Int) (user : String)
    (payload : Option Payload) (acceptOk dialOk : Bool) : List ChannelAction :=
  match payload with
  | none => [ChannelAction.rejected RejectReason.prohibited "invalid direct-tcpip payload"]
  | some p =>
    match grants.validateAccess now user p.destAddr with
    | none => [ChannelAction.rejected RejectReason.prohibited "no valid grant for target"]
    | some g =>
      if !acceptOk then []
      else
        let addr := joinHostPort p.destAddr p.destPort
        if !dialOk then [ChannelAction.accepted, ChannelAction.channelClosed]
        else
          [ChannelAction.accepted, ChannelAction.dialed addr,
           ChannelAction.sessionLogged "connect" g.id user addr,
           ChannelAction.sessionLogged "disconnect" g.id user addr,
           ChannelAction.targetClosed, ChannelAction.channelClosed]

/-- Channel dispatch of `Server.handleConn`: only `direct-tcpip` is
supported; everything else is rejected with `UnknownChannelType`. -/
def handleChannel (chanType : String) (grants : GrantStore) (now : Int)
    (user : String) (payload : Option Payload) (acceptOk dialOk : Bool) :
    List ChannelAction :=
  if chanType == "direct-tcpip" then
    handleDirectTCPIP grants now user payload acceptOk dialOk
  else
    [ChannelAction.rejected RejectReason.unknownChannelType "unsupported channel type"]

/-- Whether an action records a disconnect session event. -/
def isDisconnectEvent : ChannelAction → Bool
  | ChannelAction.sessionLogged event _ _ _ => event == "disconnect"
  | _ => false

/-! ## Header lemmas -/

/-- Values distribute over appending header lists. -/
theorem hdrValues_append (a b : Headers) (k : String) :
    hdrValues (a ++ b) k = hdrValues a k ++ hdrValues b k := by
  simp [hdrValues, List.filter_append]

/-- Filtering by a predicate that keeps every pair of a name leaves
that name's values unchanged. -/
theorem hdrValues_filter_of_keeps (l : Headers) (f : String × String → Bool)
    (k : String) (h : ∀ p : String × String, lowerStr p.1 = lowerStr k → f p = true) :
    hdrValues (l.filter f) k = hdrValues l k := by
  unfold hdrValues
  rw [List.filter_filter]
  congr 1
  apply List.filter_congr
  intro a _
  by_cases hk : lowerStr a.1 = lowerStr k
  · simp [hk, h a hk]
  · simp [hk]

/-- Filtering by a predicate that drops every pair of a name leaves no
values for that name. -/
theorem hdrValues_filter_of_drops (l : Headers) (f : String × String → Bool)
    (k : String) (h : ∀ p : String × String, lowerStr p.1 = lowerStr k → f p = false) :
    hdrValues (l.filter f) k = [] := by
  unfold hdrValues
  rw [List.filter_filter]
  have hall : ∀ a ∈ l, ((fun a : String × String =>
      (lowerStr a.1 == lowerStr k) && f a) a) = ((fun _ => false) a) := by
    intro a _
    by_cases hk : lowerStr a.1 = lowerStr k
    · simp [hk, h a hk]
    · simp [hk]
  rw [List.filter_congr hall, List.filter_false]
  rfl

/-- Deleting a name removes all values stored under it. -/
theorem hdrValues_del_self (l : Headers) (k n : String) (h : lowerStr n = lowerStr k) :
    hdrValues (hdrDel l k) n = [] := by
  apply hdrValues_filter_of_drops
  intro p hp
  simp [hp, h]

/-- Deleting one name leaves the values of a different name
unchanged. -/
theorem hdrValues_del_other (l : Headers) (k n : String) (h : lowerStr n ≠ lowerStr k) :
    hdrValues (hdrDel l k) n = hdrValues l n := by
  apply hdrValues_filter_of_keeps
  intro p hp
  simp [hp]
  exact h

/-- Setting a name makes its single value the whole value list. -/
theorem hdrValues_set_self (l : Headers) (k v n : String) (h : lowerStr n = lowerStr k) :
    hdrValues (hdrSet l k v) n = [v] := by
  rw [hdrSet, hdrValues_append, hdrValues_del_self l k n h]
  simp [hdrValues, h]

/-- Setting one name leaves the values of a different name
unchanged. -/
theorem hdrValues_set_other (l : Headers) (k v n : String) (h : lowerStr n ≠ lowerStr k) :
    hdrValues (hdrSet l k v) n = hdrValues l n := by
  rw [hdrSet, hdrValues_append, hdrValues_del_other l k n h]
  simp [hdrValues, Ne.symm h]

/-- Every pair of a set header list comes from the original list or is
the pair just set. -/
theorem mem_hdrSet (l : Headers) (k v : String) (p : String × String)
    (h : p ∈ hdrSet l k v) : p ∈ l ∨ p = (k, v) := by
  rw [hdrSet] at h
  rcases List.mem_append.mp h with hl | hr
  · exact Or.inl (List.mem_of_mem_filter hl)
  · simp at hr
    exact Or.inr (by simp [hr])

/-! ## Concrete fixtures used by witnesses and counterexamples -/

/-- Rule of the repository's tier integration test: block
`api.hetzner.cloud` for crew and captain. -/
def hetznerRule : Rule :=
  { id := "block-hetzner", pattern := "", domain := "api.hetzner.cloud",
    action := "block", description := "Block Hetzner API for non-commodore",
    tiers := ["crew", "captain"], enabled := true }

/-- Compiled form of `hetznerRule`: the exact-match domain pattern
compiles to an anchored matcher for the lower-cased domain. -/
def hetznerCompiled : CompiledRule :=
  { rule := hetznerRule, commandMatcher := none,
    domainMatcher := some (fun d => d == "api.hetzner.cloud") }

/-- Engine loaded with the single Hetzner block rule. -/
def hetznerEngine : Engine :=
  { rules := [hetznerRule], compiled := [hetznerCompiled],
    rulesPath := "", defaultAction := "allow" }

/-- Block rule with an empty tiers list. -/
def blockAllRule : Rule :=
  { id := "block-pastebin", pattern := "", domain := "pastebin.com",
    action := "block", description := "", tiers := [], enabled := true }

/-- Grant for alice on agent-1, expiring at time 1000. -/
def grantW : Grant :=
  { id := "g1", principal := "alice", target := "agent-1",
    expiresAt := 1000, createdAt := 0, createdBy := "admin" }

/-- Grant store holding exactly `grantW`. -/
def grantStoreW : GrantStore := { grants := [("g1", grantW)] }

/-- Grant store holding no grants. -/
def emptyStoreW : GrantStore := { grants := [] }

/-- Direct-tcpip payload requesting agent-1 port 22. -/
def payloadW : Payload :=
  { destAddr := "agent-1", destPort := 22, origAddr := "", origPort := 0 }

/-- Per-rule compiler outcome that always succeeds with absent
matchers. -/
def okCompileW : Rule → Except String CompiledRule :=
  fun r => Except.ok { rule := r, commandMatcher := none, domainMatcher := none }

/-! ## Claim theorems -/

/-- C10: when the forward-proxy handler is built without an agent
registry, `validateSource` admits every source IP as agent "unknown",
tier "unknown", so the 403 unregistered-agent branch of `ServeHTTP`
is unreachable. -/
theorem noRegistry_admission_fail_open : ∀ ip : String,
    validateSource none ip = ("unknown", "unknown", true) ∧
    admissionResult none ip = some ("unknown", "unknown") := by
  intro ip
  exact ⟨rfl, rfl⟩

/-- C1 (code evaluation at the failing input): `Inspector.CheckRequest`
evaluates the domain with the tier-blind `CheckDomain` and keys the
mode decision on the `X-Agent-Token` header, not on the resolved
identity.  On the input of the repository's own
`TestIntegration_TierBasedFiltering` — a commodore agent requesting
`api.hetzner.cloud` under a block rule scoped to crew and captain,
with no `X-Agent-Token` header and the default enforce mode — the
code blocks the request, although tier-aware evaluation with the
admission-resolved tier "commodore" allows it (and "crew" is
blocked, as the test also expects). -/
theorem checkRequest_ignores_resolved_identity :
    (checkRequest hetznerEngine ModeManager.new "" "api.hetzner.cloud").1 = true ∧
    (hetznerEngine.checkDomainWithTier "api.hetzner.cloud" "commodore").1 = true ∧
    (hetznerEngine.checkDomainWithTier "api.hetzner.cloud" "crew").1 = false := by
  refine ⟨?_, ?_, ?_⟩ <;> decide

/-- Closed form of `Rule.appliesToTier`. -/
theorem appliesToTier_eq (r : Rule) (tier : String) :
    r.appliesToTier tier =
      (if tier = "commodore" ∧ r.action = "block" then r.tiers.contains "commodore"
       else if r.tiers = [] then true
       else r.tiers.contains tier) := by
  unfold Rule.appliesToTier
  by_cases hc : tier = "commodore" <;> by_cases hb : r.action = "block" <;>
    simp [hc, hb, List.length_eq_zero]

/-- C4: tier policy of `Rule.appliesToTier`.  For a non-empty caller
tier: a rule with a non-empty tiers list applies iff the tier is
listed; a rule with an empty tiers list applies to every tier except
that a block rule never applies to "commodore"; a block rule applies
to "commodore" only when listed explicitly. -/
theorem appliesToTier_tier_policy : ∀ (r : Rule) (tier : String), tier ≠ "" →
    (r.tiers ≠ [] → (r.appliesToTier tier = true ↔ tier ∈ r.tiers)) ∧
    (r.tiers = [] →
      (r.appliesToTier tier = true ↔ ¬(r.action = "block" ∧ tier = "commodore"))) ∧
    (r.action = "block" →
      (r.appliesToTier "commodore" = true ↔ "commodore" ∈ r.tiers)) := by
  intro r tier _
  refine ⟨?_, ?_, ?_⟩
  · intro hne
    rw [appliesToTier_eq]
    by_cases hcb : tier = "commodore" ∧ r.action = "block"
    · obtain ⟨hc, hb⟩ := hcb
      simp [hc, hb, hne]
    · simp [hcb, hne]
  · intro he
    rw [appliesToTier_eq]
    by_cases hcb : tier = "commodore" ∧ r.action = "block"
    · obtain ⟨hc, hb⟩ := hcb
      simp [hc, hb, he]
    · simp [hcb, he]
      tauto
  · intro hb
    rw [appliesToTier_eq]
    simp [hb]

/-- C4 witness: the crew tier is listed in the Hetzner rule, so the
rule applies to crew; a block rule with empty tiers does not apply to
commodore. -/
theorem appliesToTier_tier_policy_witness :
    hetznerRule.appliesToTier "crew" = true ∧
    blockAllRule.appliesToTier "commodore" = false := by
  constructor
  · exact ((appliesToTier_tier_policy hetznerRule "crew" (by decide)).1
      (by decide)).mpr (by decide)
  · have h := (appliesToTier_tier_policy blockAllRule "commodore" (by decide)).2.1 rfl
    by_cases hb : blockAllRule.appliesToTier "commodore" = true
    · exact absurd (h.mp hb) (not_not_intro (by decide))
    · simpa using hb

/-- C6 counterexample: at the instant `now = expires_at` the grant is
still returned by both `Get` and `ValidateAccess`, although the claim
requires nil whenever `now ≥ expires_at`. -/
theorem grantStore_boundary_counterexample :
    grantW.expiresAt ≤ 1000 ∧
    GrantStore.get grantStoreW 1000 "g1" = some grantW ∧
    GrantStore.validateAccess grantStoreW 1000 "alice" "agent-1" = some grantW := by
  refine ⟨by decide, ?_, ?_⟩ <;> rfl

/-- C6 (amended): `Get` returns nil whenever `now > expires_at` (a
grant is treated as live iff `now ≤ expires_at`), and `ValidateAccess`
never returns a grant with `expires_at < now`. -/
theorem grantStore_expiry : ∀ (s : GrantStore) (now : Int) (id principal target : String),
    (∀ g : Grant, s.get now id = some g → now ≤ g.expiresAt) ∧
    (∀ g : Grant, s.grants.lookup id = some g → g.expiresAt < now → s.get now id = none) ∧
    (∀ g : Grant, s.validateAccess now principal target = some g → now ≤ g.expiresAt) := by
  intro s now id principal target
  refine ⟨?_, ?_, ?_⟩
  · intro g hg
    unfold GrantStore.get at hg
    cases hl : s.grants.lookup id with
    | none => rw [hl] at hg; cases hg
    | some g0 =>
      rw [hl] at hg
      by_cases ht : timeAfter now g0.expiresAt = true
      · simp [ht] at hg
      · simp [ht] at hg
        simp [timeAfter] at ht
        rw [← hg]
        exact ht
  · intro g hg hlt
    unfold GrantStore.get
    rw [hg]
    have ht : timeAfter now g.expiresAt = true := by
      simp [timeAfter]
      exact hlt
    simp [ht]
  · intro g hg
    unfold GrantStore.validateAccess at hg
    rw [Option.map_eq_some'] at hg
    obtain ⟨pr, hfind, hsnd⟩ := hg
    have hp := List.find?_some hfind
    simp [timeAfter] at hp
    rw [← hsnd]
    exact hp.1.1

/-- C6 witness: the stored grant is hidden by `Get` once the clock is
strictly past its expiry, and `ValidateAccess` at a live instant
returns a grant that has not yet expired. -/
theorem grantStore_expiry_witness :
    GrantStore.get grantStoreW 2000 "g1" = none ∧ (500 : Int) ≤ grantW.expiresAt := by
  constructor
  · exact (grantStore_expiry grantStoreW 2000 "g1" "alice" "agent-1").2.1 grantW rfl
      (by decide)
  · exact (grantStore_expiry grantStoreW 500 "g1" "alice" "agent-1").2.2 grantW rfl

/-- C2: every outbound reverse-proxied request is free of the
enumerated hop-by-hop and identity headers, whatever the client sent,
and carries `X-Captain` set to the tenant's captain display name when
non-empty, else the tenant id. -/
theorem reverseProxy_identity_masking :
    ∀ (reqHeaders : Headers) (tenantCaptain tenantID : String),
    (∀ p ∈ reverseForwardHeaders reqHeaders (effectiveCaptainName tenantCaptain tenantID),
      lowerStr p.1 ∉ maskedHeaderNames) ∧
    hdrValues (reverseForwardHeaders reqHeaders (effectiveCaptainName tenantCaptain tenantID))
      "X-Captain" = [effectiveCaptainName tenantCaptain tenantID] ∧
    (tenantCaptain ≠ "" → effectiveCaptainName tenantCaptain tenantID = tenantCaptain) ∧
    (tenantCaptain = "" → effectiveCaptainName tenantCaptain tenantID = tenantID) := by
  intro reqHeaders tenantCaptain tenantID
  refine ⟨?_, ?_, ?_, ?_⟩
  · intro p hp
    unfold reverseForwardHeaders at hp
    rcases mem_hdrSet _ _ _ _ hp with hp1 | hp1
    · rcases mem_hdrSet _ _ _ _ hp1 with hp2 | hp2
      · rcases mem_hdrSet _ _ _ _ hp2 with hp3 | hp3
        · obtain ⟨_, hpred⟩ := List.mem_filter.mp hp3
          simp only [Bool.and_eq_true, Bool.not_eq_true'] at hpred
          obtain ⟨hhop, hid⟩ := hpred
          simp only [isHopByHopHeader, Bool.or_eq_false_iff, beq_eq_false_iff_ne,
            ne_eq] at hhop
          simp only [isIdentityHeader, Bool.or_eq_false_iff, beq_eq_false_iff_ne,
            ne_eq] at hid
          simp only [maskedHeaderNames, List.mem_cons, List.not_mem_nil, or_false]
          tauto
        · rw [hp3]
          show lowerStr "X-Captain" ∉ maskedHeaderNames
          decide
      · rw [hp2]
        show lowerStr "X-Forwarded-Proto" ∉ maskedHeaderNames
        decide
    · rw [hp1]
      show lowerStr "X-Plasma-Shield" ∉ maskedHeaderNames
      decide
  · unfold reverseForwardHeaders
    rw [hdrValues_set_other _ _ _ _ (by decide), hdrValues_set_other _ _ _ _ (by decide),
      hdrValues_set_self _ _ _ _ rfl]
  · intro h
    simp [effectiveCaptainName, h]
  · intro h
    simp [effectiveCaptainName, h]

/-- C2 witness: a client-supplied `X-Forwarded-For` header is absent
from the outbound request, `X-Captain` carries the captain name, and a
non-empty captain name wins over the tenant id. -/
theorem reverseProxy_identity_masking_witness :
    lowerStr "X-Captain" ∉ maskedHeaderNames ∧
    hdrValues (reverseForwardHeaders [("X-Forwarded-For", "1.2.3.4")]
      (effectiveCaptainName "Chubes" "tenant-1")) "X-Captain" =
      [effectiveCaptainName "Chubes" "tenant-1"] ∧
    effectiveCaptainName "Chubes" "tenant-1" = "Chubes" := by
  have h := reverseProxy_identity_masking [("X-Forwarded-For", "1.2.3.4")] "Chubes" "tenant-1"
  refine ⟨?_, h.2.1, h.2.2.1 (by decide)⟩
  exact h.1 ("X-Captain", effectiveCaptainName "Chubes" "tenant-1") (by decide)

/-- C8 counterexample: the outbound headers of the non-CONNECT
forwarding path are not the client's headers minus `Proxy-Connection`
and `X-Agent-Token`: a client that sent no headers reaches upstream
with an `X-Agent-ID` header (and an `X-Agent-Tier` header) injected by
the admission step of `ServeHTTP`. -/
theorem forwardHeaders_not_only_removals :
    hdrValues (forwardOutboundHeaders [] "unknown" "unknown") "X-Agent-ID" ≠
      hdrValues ([] : Headers) "X-Agent-ID" := by
  decide

/-- C8 (amended): the outbound request of the non-CONNECT forwarding
path preserves the client's headers except that `Proxy-Connection` and
`X-Agent-Token` are removed and `X-Agent-ID` / `X-Agent-Tier` are set
to the admission-resolved agent id and tier; no other header is added
or altered, and no `X-Agent-Token` value reaches upstream. -/
theorem forwardOutboundHeaders_characterization :
    ∀ (clientHeaders : Headers) (agentID tier n : String),
    hdrValues (forwardOutboundHeaders clientHeaders agentID tier) n =
      (if lowerStr n = "proxy-connection" ∨ lowerStr n = "x-agent-token" then []
       else if lowerStr n = "x-agent-id" then [agentID]
       else if lowerStr n = "x-agent-tier" then [tier]
       else hdrValues clientHeaders n) := by
  intro clientHeaders agentID tier n
  unfold forwardOutboundHeaders
  by_cases h1 : lowerStr n = "proxy-connection"
  · rw [if_pos (Or.inl h1)]
    rw [hdrValues_del_other _ _ _ (by rw [h1]; decide)]
    exact hdrValues_del_self _ _ _ (by rw [h1]; decide)
  · by_cases h2 : lowerStr n = "x-agent-token"
    · rw [if_pos (Or.inr h2)]
      exact hdrValues_del_self _ _ _ (by rw [h2]; decide)
    · rw [if_neg (by tauto)]
      rw [hdrValues_del_other _ _ _ (by rw [show lowerStr "X-Agent-Token" = "x-agent-token" from by decide]; exact h2)]
      rw [hdrValues_del_other _ _ _ (by rw [show lowerStr "Proxy-Connection" = "proxy-connection" from by decide]; exact h1)]
      by_cases h3 : lowerStr n = "x-agent-id"
      · rw [if_pos h3]
        rw [hdrValues_set_other _ _ _ _ (by rw [h3]; decide)]
        exact hdrValues_set_self _ _ _ _ (by rw [h3]; decide)
      · rw [if_neg h3]
        by_cases h4 : lowerStr n = "x-agent-tier"
        · rw [if_pos h4]
          exact hdrValues_set_self _ _ _ _ (by rw [h4]; decide)
        · rw [if_neg h4]
          rw [hdrValues_set_other _ _ _ _ (by rw [show lowerStr "X-Agent-Tier" = "x-agent-tier" from by decide]; exact h4)]
          exact hdrValues_set_other _ _ _ _ (by rw [show lowerStr "X-Agent-ID" = "x-agent-id" from by decide]; exact h3)

/-- Domain evaluation loop as a first-match search. -/
theorem evalDomainRules_eq_find (domain tier defaultAction : String) :
    ∀ rs : List CompiledRule,
    evalDomainRules domain tier defaultAction rs =
      (match rs.find? (specDomainEligible domain tier) with
       | some cr =>
         if cr.rule.action == "block" then
           (false, some cr.rule, "blocked by rule " ++ cr.rule.id ++ ": " ++ cr.rule.description)
         else
           (true, some cr.rule, "allowed by rule " ++ cr.rule.id ++ ": " ++ cr.rule.description)
       | none =>
         if defaultAction == "block" then (false, none, "blocked by default policy")
         else (true, none, "allowed by default policy")) := by
  intro rs
  induction rs with
  | nil => rfl
  | cons cr rest ih =>
    by_cases hp : specDomainEligible domain tier cr = true
    · rw [List.find?_cons_of_pos _ hp]
      simp only [specDomainEligible, Bool.and_eq_true, Bool.not_eq_true',
        beq_eq_false_iff_ne, ne_eq, Bool.or_eq_true, beq_iff_eq] at hp
      obtain ⟨⟨⟨h1, h2⟩, h3⟩, h4⟩ := hp
      rcases h3 with h3 | h3 <;>
        simp [evalDomainRules, h1, h2, h3, h4]
    · rw [List.find?_cons_of_neg _ hp]
      rw [← ih]
      cases hen : cr.rule.enabled with
      | false => simp [evalDomainRules, hen]
      | true =>
        cases hdom : cr.rule.domain == "" with
        | true => simp [evalDomainRules, hen, hdom]
        | false =>
          cases hskip : (tier != "" && !cr.rule.appliesToTier tier) with
          | true => simp [evalDomainRules, hen, hdom, hskip]
          | false =>
            have hmatch : cr.matchDomain domain = false := by
              cases hm : cr.matchDomain domain
              · rfl
              · exfalso
                apply hp
                unfold specDomainEligible
                rw [hen, hdom, hm]
                simp only [Bool.not_false, Bool.true_and, Bool.and_true]
                cases ha : cr.rule.appliesToTier tier with
                | true => simp [ha]
                | false =>
                  rw [ha] at hskip
                  simp only [Bool.not_false, Bool.and_true] at hskip
                  have hte : (tier == "") = true := by
                    cases hq : (tier == "")
                    · exfalso
                      revert hskip
                      simp [bne, hq]
                    · rfl
                  simp [hte]
            simp [evalDomainRules, hen, hdom, hskip, hmatch]

/-- Command evaluation loop as a first-match search. -/
theorem evalCommandRules_eq_find (command tier defaultAction : String) :
    ∀ rs : List CompiledRule,
    evalCommandRules command tier defaultAction rs =
      (match rs.find? (specCommandEligible command tier) with
       | some cr =>
         if cr.rule.action == "block" then
           (false, some cr.rule, "blocked by rule " ++ cr.rule.id ++ ": " ++ cr.rule.description)
         else
           (true, some cr.rule, "allowed by rule " ++ cr.rule.id ++ ": " ++ cr.rule.description)
       | none =>
         if defaultAction == "block" then (false, none, "blocked by default policy")
         else (true, none, "allowed by default policy")) := by
  intro rs
  induction rs with
  | nil => rfl
  | cons cr rest ih =>
    by_cases hp : specCommandEligible command tier cr = true
    · rw [List.find?_cons_of_pos _ hp]
      simp only [specCommandEligible, Bool.and_eq_true, Bool.not_eq_true',
        beq_eq_false_iff_ne, ne_eq, Bool.or_eq_true, beq_iff_eq] at hp
      obtain ⟨⟨⟨h1, h2⟩, h3⟩, h4⟩ := hp
      rcases h3 with h3 | h3 <;>
        simp [evalCommandRules, h1, h2, h3, h4]
    · rw [List.find?_cons_of_neg _ hp]
      rw [← ih]
      cases hen : cr.rule.enabled with
      | false => simp [evalCommandRules, hen]
      | true =>
        cases hdom : cr.rule.pattern == "" with
        | true => simp [evalCommandRules, hen, hdom]
        | false =>
          cases hskip : (tier != "" && !cr.rule.appliesToTier tier) with
          | true => simp [evalCommandRules, hen, hdom, hskip]
          | false =>
            have hmatch : cr.matchCommand command = false := by
              cases hm : cr.matchCommand command
              · rfl
              · exfalso
                apply hp
                unfold specCommandEligible
                rw [hen, hdom, hm]
                simp only [Bool.not_false, Bool.true_and, Bool.and_true]
                cases ha : cr.rule.appliesToTier tier with
                | true => simp [ha]
                | false =>
                  rw [ha] at hskip
                  simp only [Bool.not_false, Bool.and_true] at hskip
                  have hte : (tier == "") = true := by
                    cases hq : (tier == "")
                    · exfalso
                      revert hskip
                      simp [bne, hq]
                    · rfl
                  simp [hte]
            simp [evalCommandRules, hen, hdom, hskip, hmatch]

/-- C5: tier-aware evaluation is first-match evaluation in declared
order: `CheckDomainWithTier` and `CheckCommandWithTier` skip disabled
rules, rules without a pattern of the requested kind and rules that do
not apply to the tier, return the block/allow decision with the
"blocked by rule <id>: <desc>" / "allowed by rule <id>: <desc>" reason
for the first matching rule, and fall back to the engine default with
no matched rule. -/
theorem checkWithTier_first_match : ∀ (e : Engine) (domain command tier : String),
    e.checkDomainWithTier domain tier = specCheckDomainWithTier e domain tier ∧
    e.checkCommandWithTier command tier = specCheckCommandWithTier e command tier := by
  intro e domain command tier
  constructor
  · unfold Engine.checkDomainWithTier specCheckDomainWithTier
    exact evalDomainRules_eq_find domain tier e.defaultAction e.compiled
  · unfold Engine.checkCommandWithTier specCheckCommandWithTier
    exact evalCommandRules_eq_find command tier e.defaultAction e.compiled

/-- Compilation of a ruleset fails whenever the compilation of any of
its rules fails. -/
theorem compileRuleSetWith_error_of_mem (compileOne : Rule → Except String CompiledRule) :
    ∀ (rs : List Rule) (r : Rule), r ∈ rs → isErr (compileOne r) = true →
    ∃ msg, compileRuleSetWith compileOne rs = Except.error msg := by
  intro rs
  induction rs with
  | nil =>
    intro r hr
    cases hr
  | cons a as ih =>
    intro r hr herr
    rcases List.mem_cons.mp hr with heq | hmem
    · subst heq
      unfold compileRuleSetWith
      cases hc : compileOne r with
      | error msg => exact ⟨_, rfl⟩
      | ok _ => simp [hc, isErr] at herr
    · unfold compileRuleSetWith
      cases hc : compileOne a with
      | error msg => exact ⟨_, rfl⟩
      | ok cr =>
        obtain ⟨msg, hm⟩ := ih r hmem herr
        rw [hm]
        exact ⟨msg, rfl⟩

/-- C7: rule loading is all-or-nothing.  When the parse or the
compilation of any rule fails, `LoadRules` / `LoadRulesFromBytes`
report an error and leave the engine — its ruleset, compiled rules and
rules path, hence `RuleCount` and every `CheckDomain` / `CheckCommand`
result — exactly as before; on success the whole ruleset, compiled
rules and (for `LoadRules`) the path are replaced in one step. -/
theorem loadRules_atomic : ∀ (e : Engine) (path : String)
    (parsed : Except String (List Rule))
    (compileOne : Rule → Except String CompiledRule),
    ((e.loadRules path parsed compileOne).2.isSome →
      (e.loadRules path parsed compileOne).1 = e) ∧
    ((e.loadRulesFromBytes parsed compileOne).2.isSome →
      (e.loadRulesFromBytes parsed compileOne).1 = e) ∧
    (∀ (rs : List Rule) (r : Rule), parsed = Except.ok rs → r ∈ rs →
      isErr (compileOne r) = true →
      (e.loadRules path parsed compileOne).2.isSome = true ∧
      (e.loadRulesFromBytes parsed compileOne).2.isSome = true) ∧
    (∀ (rs : List Rule) (compiled : List CompiledRule), parsed = Except.ok rs →
      compileRuleSetWith compileOne rs = Except.ok compiled →
      e.loadRules path parsed compileOne =
        ({ e with rules := rs, compiled := compiled, rulesPath := path }, none) ∧
      e.loadRulesFromBytes parsed compileOne =
        ({ e with rules := rs, compiled := compiled }, none)) := by
  intro e path parsed compileOne
  refine ⟨?_, ?_, ?_, ?_⟩
  · cases parsed with
    | error msg =>
      intro _
      rfl
    | ok rs =>
      cases hc : compileRuleSetWith compileOne rs with
      | error msg =>
        intro _
        simp [Engine.loadRules, hc]
      | ok compiled =>
        intro h
        exfalso
        simp [Engine.loadRules, hc] at h
  · cases parsed with
    | error msg =>
      intro _
      rfl
    | ok rs =>
      cases hc : compileRuleSetWith compileOne rs with
      | error msg =>
        intro _
        simp [Engine.loadRulesFromBytes, hc]
      | ok compiled =>
        intro h
        exfalso
        simp [Engine.loadRulesFromBytes, hc] at h
  · intro rs r hok hmem herr
    subst hok
    obtain ⟨msg, hmsg⟩ := compileRuleSetWith_error_of_mem compileOne rs r hmem herr
    constructor
    · simp [Engine.loadRules, hmsg]
    · simp [Engine.loadRulesFromBytes, hmsg]
  · intro rs compiled hok hcomp
    subst hok
    constructor
    · simp [Engine.loadRules, hcomp]
    · simp [Engine.loadRulesFromBytes, hcomp]

/-- C7 witness: a failed parse leaves a fresh engine untouched, and a
successful load replaces the ruleset wholesale. -/
theorem loadRules_atomic_witness :
    (Engine.loadRules Engine.new "rules.yaml" (Except.error "failed to parse rules YAML")
      okCompileW).1 = Engine.new ∧
    Engine.loadRulesFromBytes Engine.new (Except.ok [blockAllRule]) okCompileW =
      ({ Engine.new with
          rules := [blockAllRule],
          compiled := [{ rule := blockAllRule, commandMatcher := none,
                         domainMatcher := none }] }, none) := by
  constructor
  · exact (loadRules_atomic Engine.new "rules.yaml"
      (Except.error "failed to parse rules YAML") okCompileW).1 rfl
  · exact ((loadRules_atomic Engine.new "rules.yaml" (Except.ok [blockAllRule])
      okCompileW).2.2.2 [blockAllRule]
      [{ rule := blockAllRule, commandMatcher := none, domainMatcher := none }]
      rfl rfl).2

/-- C3: the bastion accepts a direct-tcpip channel only when
`ValidateAccess`, called with the connection user and the channel's
dest_addr, returns a grant; with no grant the whole interaction is the
`Prohibited` rejection, before any accept; any other channel type is
rejected with `UnknownChannelType`. -/
theorem bastion_channel_admission : ∀ (grants : GrantStore) (now : Int)
    (user chanType : String) (payload : Option Payload) (acceptOk dialOk : Bool),
    (ChannelAction.accepted ∈ handleChannel chanType grants now user payload acceptOk dialOk →
      chanType = "direct-tcpip" ∧
      ∃ p g, payload = some p ∧ grants.validateAccess now user p.destAddr = some g) ∧
    (∀ p : Payload, chanType = "direct-tcpip" → payload = some p →
      grants.validateAccess now user p.destAddr = none →
      handleChannel chanType grants now user payload acceptOk dialOk =
        [ChannelAction.rejected RejectReason.prohibited "no valid grant for target"]) ∧
    (chanType ≠ "direct-tcpip" →
      handleChannel chanType grants now user payload acceptOk dialOk =
        [ChannelAction.rejected RejectReason.unknownChannelType "unsupported channel type"]) := by
  intro grants now user chanType payload acceptOk dialOk
  by_cases hc : chanType = "direct-tcpip"
  · refine ⟨?_, ?_, ?_⟩
    · intro hmem
      refine ⟨hc, ?_⟩
      rw [handleChannel, if_pos (by simp [hc])] at hmem
      cases payload with
      | none => simp [handleDirectTCPIP] at hmem
      | some p =>
        cases hv : grants.validateAccess now user p.destAddr with
        | none => simp [handleDirectTCPIP, hv] at hmem
        | some g => exact ⟨p, g, rfl, hv⟩
    · intro p _ hpay hnone
      subst hpay
      rw [handleChannel, if_pos (by simp [hc])]
      simp [handleDirectTCPIP, hnone]
    · intro hne
      exact absurd hc hne
  · refine ⟨?_, ?_, ?_⟩
    · intro hmem
      exfalso
      rw [handleChannel, if_neg (by simp [hc])] at hmem
      simp at hmem
    · intro p hct
      exact absurd hct hc
    · intro _
      rw [handleChannel, if_neg (by simp [hc])]

/-- C3 witness: with a live grant for alice on agent-1 the channel is
accepted and a grant exists; without a grant the channel is rejected
with Prohibited; a session channel is rejected with
UnknownChannelType. -/
theorem bastion_channel_admission_witness :
    (∃ p g, (some payloadW : Option Payload) = some p ∧
      GrantStore.validateAccess grantStoreW 500 "alice" p.destAddr = some g) ∧
    handleChannel "direct-tcpip" emptyStoreW 500 "bob" (some payloadW) true true =
      [ChannelAction.rejected RejectReason.prohibited "no valid grant for target"] ∧
    handleChannel "session" grantStoreW 500 "alice" (some payloadW) true true =
      [ChannelAction.rejected RejectReason.unknownChannelType "unsupported channel type"] := by
  refine ⟨?_, ?_, ?_⟩
  · exact ((bastion_channel_admission grantStoreW 500 "alice" "direct-tcpip"
      (some payloadW) true true).1 (by decide)).2
  · exact (bastion_channel_admission emptyStoreW 500 "bob" "direct-tcpip"
      (some payloadW) true true).2.1 payloadW rfl rfl rfl
  · exact (bastion_channel_admission grantStoreW 500 "alice" "session"
      (some payloadW) true true).2.2 (by decide)

/-- C9 counterexample: on a dial failure after the channel was
accepted under a live grant, the trace closes the channel but records
no disconnect session event (and no connect event), contradicting the
claim that a disconnect event is still recorded. -/
theorem bastion_dial_failure_counterexample :
    (handleDirectTCPIP grantStoreW 500 "alice" (some payloadW) true false).any
      isDisconnectEvent = false ∧
    ChannelAction.channelClosed ∈
      handleDirectTCPIP grantStoreW 500 "alice" (some payloadW) true false := by
  constructor <;> decide

/-- C9 (amended): when the TCP dial fails on an accepted direct-tcpip
channel, the channel is closed and no session event is recorded — in
particular no disconnect event reaches the session log. -/
theorem bastion_dial_failure_closes_quietly : ∀ (grants : GrantStore) (now : Int)
    (user : String) (p : Payload) (g : Grant),
    grants.validateAccess now user p.destAddr = some g →
    handleDirectTCPIP grants now user (some p) true false =
      [ChannelAction.accepted, ChannelAction.channelClosed] ∧
    (handleDirectTCPIP grants now user (some p) true false).any isDisconnectEvent = false := by
  intro grants now user p g hg
  constructor
  · simp [handleDirectTCPIP, hg]
  · simp [handleDirectTCPIP, hg, isDisconnectEvent]

/-- C9 witness: the concrete dial-failure trace under a live grant. -/
theorem bastion_dial_failure_closes_quietly_witness :
    handleDirectTCPIP grantStoreW 500 "alice" (some payloadW) true false =
      [ChannelAction.accepted, ChannelAction.channelClosed] := by
  exact (bastion_dial_failure_closes_quietly grantStoreW 500 "alice" payloadW grantW
    (by decide)).1

end PlasmaShield
